import Mathlib

/-! LoRa ping-pong sketch (`src/main.cpp`).

A shallow embedding of the Arduino sketch: the three globals and the function-local
static counter form the `State`; every call into the serial port, the timer or the
radio driver is recorded as an `Event`; the values the driver hands back (status
codes, payload, link metrics, clock) are inputs of each function.

Machine integers: status codes are `int16_t` values widened to `int`, carried as `Int`;
the message counter is a `uint16_t`, carried as `Nat` with an explicit `% 65536`.
-/

namespace PingPong

/-- Compile-time constants of one firmware image: whether `INITIATING_NODE` is defined,
and the values of the macros `RADIOLIB_ERR_NONE`, `PROJECT_NAME`, `__TIME__` and
`BAUD_RATE`, none of which is defined in `main.cpp`. -/
structure Build where
  initiatingNode : Bool
  errNone : Int
  projectName : String
  compileTime : String
  baudRate : Nat
deriving DecidableEq

/-- The fields from which `transmitMsg` assembles the outgoing `String`. -/
structure Msg where
  cnt : Nat
  millis : Nat
  projectName : String
  compileTime : String
deriving DecidableEq

/-- The text handed to `radio.startTransmit` (line 103). -/
def Msg.text (m : Msg) : String :=
  ", cnt: " ++ toString m.cnt ++ ", millis: " ++ toString m.millis ++
    ", HelloFrom: " ++ m.projectName ++ ", CompilationTime: " ++ m.compileTime

/-- Argument of a `Serial.print` / `Serial.println` call, by overload: a string literal
(wrapped in `F(...)` or not), a `String` object, an `int`, a `size_t`, or a `float`
(link metrics are carried as uninterpreted integers). -/
inductive Printable where
  | text (s : String)
  | str (s : String)
  | int (v : Int)
  | size (n : Nat)
  | float (v : Int)
deriving DecidableEq

/-- One observable call made by the sketch. -/
inductive Event where
  | serialBegin (baud : Nat)
  | print (p : Printable)
  | println (p : Printable)
  | delay (ms : Nat)
  | newModule (cs dio0 rst dio1 : Nat)
  | radioBegin (freqKHz bwHz sf cr syncWord power preambleLength gain : Nat)
  | setDio0Action
  | millis
  | startTransmit (m : Msg)
  | startReceive
  | readData
  | getRSSI
  | getSNR
deriving DecidableEq

/-- The globals `transmissionState`, `transmitFlag`, `operationDone` (lines 38-44) and
the static `cnt` of `transmitMsg` (line 102). -/
structure State where
  transmissionState : Int
  transmitFlag : Bool
  operationDone : Bool
  cnt : Nat
deriving DecidableEq

/-- Values of the globals after static initialisation. -/
def initState (b : Build) : State :=
  { transmissionState := b.errNone, transmitFlag := false, operationDone := false, cnt := 0 }

/-- Whether a function came back to its caller or entered a `while (true)` loop. -/
inductive Flow where
  | returned
  | halted
deriving DecidableEq

/-- The interrupt handler `setFlag` (lines 53-57). -/
def setFlag (s : State) : State :=
  { s with operationDone := true }

/-- The function `setupLoRa` (lines 59-98); `beginStatus` is what `radio.begin` returns. -/
def setupLoRa (b : Build) (beginStatus : Int) : Flow × List Event :=
  let pre : List Event :=
    [.newModule 18 26 14 33,
     .print (.text "[SX1276] Initializing ...  "),
     .radioBegin 868000 62500 12 8 0x12 14 12 1]
  if beginStatus = b.errNone then
    (.returned, pre ++ [.println (.text "success!")])
  else
    (.halted, pre ++ [.print (.text "failed, code "), .println (.int beginStatus)])

/-- The function `transmitMsg` (lines 100-106): pre-increments the 16-bit counter, builds
the message and starts the transmission; `now` is what `millis()` returns and `txStatus`
what `radio.startTransmit` returns. The result is the returned status, the new state and
the calls made. -/
def transmitMsg (b : Build) (now : Nat) (txStatus : Int) (s : State) :
    Int × State × List Event :=
  let cnt := (s.cnt + 1) % 65536
  let msg : Msg := { cnt := cnt, millis := now, projectName := b.projectName,
                     compileTime := b.compileTime }
  (txStatus, { s with cnt := cnt }, [.millis, .startTransmit msg])

/-- What the driver and the clock return to the calls made by `setup`. -/
structure SetupEnv where
  beginStatus : Int
  now : Nat
  startTransmitStatus : Int
  startReceiveStatus : Int
deriving DecidableEq

/-- The ten-second countdown at the top of `setup` (lines 111-115). -/
def countdown : List Event :=
  (List.range 10).foldr (fun i acc => Event.println (.size i) :: Event.delay 1000 :: acc) []

/-- The function `setup` (lines 108-148). -/
def setup (b : Build) (env : SetupEnv) (s : State) : Flow × State × List Event :=
  let pre : List Event :=
    [.serialBegin b.baudRate] ++ countdown ++ [.print (.text "[SX1276] Initializing ... ")]
  match setupLoRa b env.beginStatus with
  | (.halted, ev) => (.halted, s, pre ++ ev)
  | (.returned, ev) =>
    let pre := pre ++ ev ++ [.setDio0Action]
    if b.initiatingNode then
      let tx := transmitMsg b env.now env.startTransmitStatus s
      (.returned, { tx.2.1 with transmissionState := tx.1, transmitFlag := true },
        pre ++ [.print (.text "[SX1276] Sending first packet ... ")] ++ tx.2.2)
    else
      let pre := pre ++ [.print (.text "[SX1276] Starting to listen ... "), .startReceive]
      if env.startReceiveStatus = b.errNone then
        (.returned, s, pre ++ [.println (.text "success!")])
      else
        (.halted, s,
          pre ++ [.print (.text "failed, code "), .println (.int env.startReceiveStatus)])

/-- What the driver and the clock return to the calls made by one `loop` iteration. -/
structure LoopEnv where
  startReceiveStatus : Int
  readDataStatus : Int
  readDataStr : String
  rssi : Int
  snr : Int
  now : Nat
  startTransmitStatus : Int
deriving DecidableEq

/-- Lines 162-171: report of the finished transmission. -/
def transmitReport (b : Build) (transmissionState : Int) : List Event :=
  if transmissionState = b.errNone then
    [.println (.text "transmission finished!")]
  else
    [.print (.text "failed, code "), .println (.int transmissionState)]

/-- Lines 184-202: report of a received packet, printed only when `readData` succeeded. -/
def receiveReport (b : Build) (env : LoopEnv) : List Event :=
  if env.readDataStatus = b.errNone then
    [.println (.text "[SX1276] Received packet!"),
     .print (.text "[SX1276] Data:\t\t"), .println (.str env.readDataStr),
     .print (.text "[SX1276] RSSI:\t\t"), .getRSSI, .print (.float env.rssi),
     .println (.text " dBm"),
     .print (.text "[SX1276] SNR:\t\t"), .getSNR, .print (.float env.snr),
     .println (.text " dB")]
  else
    []

/-- The function `loop` (lines 150-213), executed without the handler `setFlag` firing
while it runs; `loopIrq` adds such a firing. -/
def loop (b : Build) (env : LoopEnv) (s : State) : State × List Event :=
  if s.operationDone then
    let s1 := { s with operationDone := false }
    if s1.transmitFlag then
      ({ s1 with transmitFlag := false },
        transmitReport b s1.transmissionState ++ [.startReceive])
    else
      let tx := transmitMsg b env.now env.startTransmitStatus s1
      ({ tx.2.1 with transmissionState := tx.1, transmitFlag := true },
        [.readData] ++ receiveReport b env ++
          [.delay 1000, .print (.text "[SX1276] Sending another packet ... ")] ++ tx.2.2)
  else
    (s, [])

/-- One turn of the Arduino main loop: `notified` tells whether `setFlag` fired since the
previous iteration tested and cleared the flag (during the rest of that iteration or
between the two), `env` is what the driver returns during the iteration. -/
structure Step where
  notified : Bool
  env : LoopEnv
deriving DecidableEq

/-- State at the entry of an iteration, after the pending notification (if any). -/
def arrive (notified : Bool) (s : State) : State :=
  if notified then setFlag s else s

/-- One execution of `loop` with interrupts enabled. The flag `operationDone` is `volatile`
and written by `setFlag`, registered on DIO0 at line 123; `firedInside` tells whether
`setFlag` fired during this execution after the flag was tested (line 153) and, when it
was set, cleared (line 156). Nothing after line 156 reads the flag, so the calls made and
the other variables are those of `loop`, and the flag is set when `loop` returns. A firing
before the test is a notification at entry (`arrive`); a firing between the test and the
clear is overwritten by the clear and leaves no difference with `loop`. -/
def loopIrq (b : Build) (env : LoopEnv) (firedInside : Bool) (s : State) :
    State × List Event :=
  let r := loop b env s
  (if firedInside then setFlag r.1 else r.1, r.2)

/-- Successive `loop` iterations, with the calls they make, in order. -/
def iterate (b : Build) : State → List Step → State × List Event
  | s, [] => (s, [])
  | s, st :: rest =>
    let r := loop b st.env (arrive st.notified s)
    let r' := iterate b r.1 rest
    (r'.1, r.2 ++ r'.2)

/-- A run of the firmware: `setup` once, then `loop` for each step, unless `setup` never
returns. -/
def run (b : Build) (env : SetupEnv) (steps : List Step) : Flow × State × List Event :=
  match setup b env (initState b) with
  | (.halted, s, ev) => (.halted, s, ev)
  | (.returned, s, ev) =>
    let r := iterate b s steps
    (.returned, r.1, ev ++ r.2)

/-- The two asynchronous radio operations. -/
inductive AsyncOp where
  | transmit
  | receive
deriving DecidableEq

/-- The asynchronous operation started by a call, if any. -/
def Event.asyncOp : Event → Option AsyncOp
  | .startTransmit _ => some .transmit
  | .startReceive => some .receive
  | _ => none

/-- Asynchronous operations issued along a trace, in order. -/
def asyncOps (tr : List Event) : List AsyncOp :=
  tr.filterMap Event.asyncOp

/-- Messages handed to `startTransmit` along a trace, in order. -/
def sentMsgs : List Event → List Msg
  | [] => []
  | .startTransmit m :: rest => m :: sentMsgs rest
  | _ :: rest => sentMsgs rest

/-- Counters embedded in the messages transmitted along a trace, in order. -/
def sentCounters (tr : List Event) : List Nat :=
  (sentMsgs tr).map Msg.cnt

/-- A call into the radio driver that transmits, listens or reads a packet. -/
def Event.isRadioOp : Event → Bool
  | .startTransmit _ => true
  | .startReceive => true
  | .readData => true
  | _ => false

/-- A serial log call. -/
def Event.isLog : Event → Bool
  | .print _ => true
  | .println _ => true
  | _ => false

/-- The operation whose completion the controller is waiting for, as recorded in
`transmitFlag`. -/
def pendingOp (s : State) : AsyncOp :=
  if s.transmitFlag then .transmit else .receive

/-- Calls made by `setup` up to and including `radio.begin` (lines 110-119 and 61-85). -/
def bootCalls (b : Build) : List Event :=
  [.serialBegin b.baudRate] ++ countdown ++
    [.print (.text "[SX1276] Initializing ... "), .newModule 18 26 14 33,
     .print (.text "[SX1276] Initializing ...  "),
     .radioBegin 868000 62500 12 8 0x12 14 12 1]

/-! ## Concrete inputs used to exercise the theorems -/

/-- A firmware image with `RADIOLIB_ERR_NONE = 0`, built as Initiator or as Responder. -/
def demoBuild (initiating : Bool) : Build :=
  { initiatingNode := initiating, errNone := 0, projectName := "lora-pingpong-sx127x",
    compileTime := "12:00:00", baudRate := 115200 }

/-- A start-up in which every driver call succeeds. -/
def okSetup : SetupEnv :=
  { beginStatus := 0, now := 10000, startTransmitStatus := 0, startReceiveStatus := 0 }

/-- An iteration in which every driver call succeeds. -/
def okLoop : LoopEnv :=
  { startReceiveStatus := 0, readDataStatus := 0, readDataStr := "ping", rssi := -47, snr := 9,
    now := 12000, startTransmitStatus := 0 }

/-- An iteration in which `readData` reports a CRC mismatch (status -7). -/
def crcLoop : LoopEnv :=
  { okLoop with readDataStatus := -7, readDataStr := "" }

/-- A state in which a completed transmission (whose start returned `t`) awaits handling. -/
def txDoneState (t : Int) : State :=
  { transmissionState := t, transmitFlag := true, operationDone := true, cnt := 1 }

/-- A state in which a completed reception awaits handling. -/
def rxDoneState : State :=
  { transmissionState := 0, transmitFlag := false, operationDone := true, cnt := 1 }

/-! ## Basic facts about one `loop` iteration -/

theorem loop_idle (b : Build) (env : LoopEnv) (s : State) (h : s.operationDone = false) :
    loop b env s = (s, []) := by
  simp [loop, h]

theorem loop_transmit_branch (b : Build) (env : LoopEnv) (s : State)
    (hd : s.operationDone = true) (ht : s.transmitFlag = true) :
    loop b env s =
      ({ s with operationDone := false, transmitFlag := false },
        transmitReport b s.transmissionState ++ [.startReceive]) := by
  simp [loop, hd, ht]

theorem loop_receive_branch (b : Build) (env : LoopEnv) (s : State)
    (hd : s.operationDone = true) (ht : s.transmitFlag = false) :
    loop b env s =
      ({ s with operationDone := false, transmissionState := env.startTransmitStatus,
                transmitFlag := true, cnt := (s.cnt + 1) % 65536 },
        [.readData] ++ receiveReport b env ++
          [.delay 1000, .print (.text "[SX1276] Sending another packet ... "), .millis,
           .startTransmit { cnt := (s.cnt + 1) % 65536, millis := env.now,
                            projectName := b.projectName,
                            compileTime := b.compileTime }]) := by
  simp [loop, hd, ht, transmitMsg]

theorem asyncOps_append (xs ys : List Event) :
    asyncOps (xs ++ ys) = asyncOps xs ++ asyncOps ys := by
  simp [asyncOps]

theorem asyncOps_transmitReport (b : Build) (t : Int) : asyncOps (transmitReport b t) = [] := by
  unfold transmitReport
  split <;> simp [asyncOps, Event.asyncOp]

theorem asyncOps_receiveReport (b : Build) (env : LoopEnv) :
    asyncOps (receiveReport b env) = [] := by
  unfold receiveReport
  split <;> simp [asyncOps, Event.asyncOp]

theorem sentMsgs_append (xs ys : List Event) :
    sentMsgs (xs ++ ys) = sentMsgs xs ++ sentMsgs ys := by
  induction xs with
  | nil => rfl
  | cons x xs ih => cases x <;> simp [sentMsgs, ih]

theorem sentMsgs_transmitReport (b : Build) (t : Int) : sentMsgs (transmitReport b t) = [] := by
  unfold transmitReport
  split <;> simp [sentMsgs]

theorem sentMsgs_receiveReport (b : Build) (env : LoopEnv) :
    sentMsgs (receiveReport b env) = [] := by
  unfold receiveReport
  split <;> simp [sentMsgs]

/-- The operations started by one iteration: none when idle, otherwise exactly the
opposite of the one that was pending; `transmitFlag` follows. -/
theorem loop_asyncOps (b : Build) (env : LoopEnv) (s : State) :
    (s.operationDone = false ∧ loop b env s = (s, [])) ∨
    (s.operationDone = true ∧ asyncOps (loop b env s).2 = [pendingOp (loop b env s).1] ∧
      pendingOp (loop b env s).1 ≠ pendingOp s) := by
  cases hd : s.operationDone with
  | false => exact Or.inl ⟨rfl, loop_idle b env s hd⟩
  | true =>
    refine Or.inr ⟨rfl, ?_⟩
    cases ht : s.transmitFlag with
    | true =>
      rw [loop_transmit_branch b env s hd ht]
      simp only [asyncOps_append, asyncOps_transmitReport]
      simp [asyncOps, Event.asyncOp, pendingOp, ht]
    | false =>
      rw [loop_receive_branch b env s hd ht]
      simp only [asyncOps_append, asyncOps_receiveReport]
      simp [asyncOps, Event.asyncOp, pendingOp, ht]

/-! ## Facts about `setup` -/

theorem asyncOps_bootCalls (b : Build) : asyncOps (bootCalls b) = [] := by
  simp [bootCalls, countdown, asyncOps, Event.asyncOp, List.range, List.range.loop]

theorem sentMsgs_bootCalls (b : Build) : sentMsgs (bootCalls b) = [] := by
  simp [bootCalls, countdown, sentMsgs, List.range, List.range.loop]

theorem bootCalls_quiet (b : Build) :
    ∀ e ∈ bootCalls b, e.isRadioOp = false ∧ e ≠ .setDio0Action := by
  intro e he
  simp [bootCalls, countdown, List.range, List.range.loop] at he
  rcases he with h | h | h | h | h | h | h | h | h | h | h | h | h | h | h | h | h | h | h | h |
    h | h | h | h | h <;> subst h <;> simp [Event.isRadioOp]

theorem setup_begin_failed (b : Build) (env : SetupEnv) (s : State)
    (h : env.beginStatus ≠ b.errNone) :
    setup b env s =
      (.halted, s,
        bootCalls b ++ [.print (.text "failed, code "), .println (.int env.beginStatus)]) := by
  simp [setup, setupLoRa, h, bootCalls]

theorem setup_initiator (b : Build) (env : SetupEnv) (s : State)
    (h : env.beginStatus = b.errNone) (hi : b.initiatingNode = true) :
    setup b env s =
      (.returned,
        { s with transmissionState := env.startTransmitStatus, transmitFlag := true,
                 cnt := (s.cnt + 1) % 65536 },
        bootCalls b ++
          [.println (.text "success!"), .setDio0Action,
           .print (.text "[SX1276] Sending first packet ... "), .millis,
           .startTransmit { cnt := (s.cnt + 1) % 65536, millis := env.now,
                            projectName := b.projectName,
                            compileTime := b.compileTime }]) := by
  simp [setup, setupLoRa, h, hi, bootCalls, transmitMsg]

theorem setup_responder (b : Build) (env : SetupEnv) (s : State)
    (h : env.beginStatus = b.errNone) (hi : b.initiatingNode = false) :
    setup b env s =
      (if env.startReceiveStatus = b.errNone then
        (.returned, s,
          bootCalls b ++
            [.println (.text "success!"), .setDio0Action,
             .print (.text "[SX1276] Starting to listen ... "), .startReceive,
             .println (.text "success!")])
      else
        (.halted, s,
          bootCalls b ++
            [.println (.text "success!"), .setDio0Action,
             .print (.text "[SX1276] Starting to listen ... "), .startReceive,
             .print (.text "failed, code "), .println (.int env.startReceiveStatus)])) := by
  by_cases hr : env.startReceiveStatus = b.errNone <;>
    simp [setup, setupLoRa, h, hi, bootCalls, hr]

/-! ## Alternation of the asynchronous operations -/

theorem pendingOp_arrive (n : Bool) (s : State) : pendingOp (arrive n s) = pendingOp s := by
  cases n <;> simp [arrive, setFlag, pendingOp]

theorem iterate_nil (b : Build) (s : State) : iterate b s [] = (s, []) := rfl

theorem iterate_cons (b : Build) (s : State) (st : Step) (rest : List Step) :
    iterate b s (st :: rest) =
      ((iterate b (loop b st.env (arrive st.notified s)).1 rest).1,
        (loop b st.env (arrive st.notified s)).2 ++
          (iterate b (loop b st.env (arrive st.notified s)).1 rest).2) := rfl

/-- Along any sequence of iterations every operation started differs from the one before
it, the first one differing from the operation pending at entry. -/
theorem iterate_alternates (b : Build) (steps : List Step) (s : State) :
    List.Chain (· ≠ ·) (pendingOp s) (asyncOps (iterate b s steps).2) := by
  induction steps generalizing s with
  | nil => simp [iterate_nil, asyncOps]
  | cons st rest ih =>
    rw [iterate_cons]
    simp only [asyncOps_append]
    rcases loop_asyncOps b st.env (arrive st.notified s) with ⟨_, h⟩ | ⟨_, h1, h2⟩
    · rw [h]
      simpa [asyncOps, pendingOp_arrive] using ih (arrive st.notified s)
    · rw [h1]
      rw [pendingOp_arrive] at h2
      simpa using ⟨fun h => h2 h.symm, ih _⟩

/-- C1: in every run (`setup`, then any number of `loop` iterations, a completion
notification possibly arriving before each of them, any status codes coming back from
the radio) no two consecutive asynchronous radio operations are of the same kind, and
the first one issued is `startTransmit` on the Initiator build and `startReceive` on
the Responder build; one is issued as soon as `radio.begin` succeeds. -/
theorem run_ops_alternate (b : Build) (env : SetupEnv) (steps : List Step) :
    List.Chain' (· ≠ ·) (asyncOps (run b env steps).2.2) ∧
    (∀ op, (asyncOps (run b env steps).2.2).head? = some op →
      op = if b.initiatingNode then AsyncOp.transmit else AsyncOp.receive) ∧
    (env.beginStatus = b.errNone →
      (asyncOps (run b env steps).2.2).head? =
        some (if b.initiatingNode then AsyncOp.transmit else AsyncOp.receive)) := by
  by_cases hb : env.beginStatus = b.errNone
  · cases hi : b.initiatingNode with
    | true =>
      have hrun : asyncOps (run b env steps).2.2 =
          AsyncOp.transmit :: asyncOps (iterate b
            { initState b with transmissionState := env.startTransmitStatus,
                               transmitFlag := true,
                               cnt := ((initState b).cnt + 1) % 65536 } steps).2 := by
        simp only [run, setup_initiator b env _ hb hi, asyncOps_append, asyncOps_bootCalls]
        simp [asyncOps, Event.asyncOp]
      rw [hrun]
      refine ⟨?_, by simp, by simp⟩
      have h := iterate_alternates b steps
        { initState b with transmissionState := env.startTransmitStatus,
                           transmitFlag := true,
                           cnt := ((initState b).cnt + 1) % 65536 }
      simpa [pendingOp, List.Chain'] using h
    | false =>
      by_cases hr : env.startReceiveStatus = b.errNone
      · have hrun : asyncOps (run b env steps).2.2 =
            AsyncOp.receive :: asyncOps (iterate b (initState b) steps).2 := by
          simp only [run, setup_responder b env _ hb hi, hr, if_true, asyncOps_append,
            asyncOps_bootCalls]
          simp [asyncOps, Event.asyncOp]
        rw [hrun]
        refine ⟨?_, by simp, by simp⟩
        have h := iterate_alternates b steps (initState b)
        simpa [pendingOp, initState, List.Chain'] using h
      · have hrun : asyncOps (run b env steps).2.2 = [AsyncOp.receive] := by
          simp only [run, setup_responder b env _ hb hi, hr, if_false, asyncOps_append,
            asyncOps_bootCalls]
          simp [asyncOps, Event.asyncOp]
        rw [hrun]
        simp
  · have hrun : asyncOps (run b env steps).2.2 = [] := by
      simp only [run, setup_begin_failed b env _ hb, asyncOps_append, asyncOps_bootCalls]
      simp [asyncOps, Event.asyncOp]
    rw [hrun]
    simp [hb]

theorem run_ops_alternate_witness :
    okSetup.beginStatus = (demoBuild true).errNone ∧
    (asyncOps (run (demoBuild true) okSetup
        [⟨true, okLoop⟩, ⟨false, okLoop⟩, ⟨true, okLoop⟩]).2.2).head? =
      some (if (demoBuild true).initiatingNode then AsyncOp.transmit else AsyncOp.receive) :=
  ⟨by decide,
    (run_ops_alternate (demoBuild true) okSetup
      [⟨true, okLoop⟩, ⟨false, okLoop⟩, ⟨true, okLoop⟩]).2.2 (by decide)⟩

/-! ## One iteration after a completed transmission -/

/-- C2: whatever `transmissionState` holds, an iteration entered with `operationDone` and
`transmitFlag` both true calls `radio.startReceive()` exactly once, calls `startTransmit`
not at all and leaves `transmitFlag = false`; the status `startReceive` returns has no
influence on the iteration. -/
theorem loop_after_transmit (b : Build) (env : LoopEnv) (s : State)
    (hd : s.operationDone = true) (ht : s.transmitFlag = true) :
    (loop b env s).2.count Event.startReceive = 1 ∧
    (∀ m, Event.startTransmit m ∉ (loop b env s).2) ∧
    asyncOps (loop b env s).2 = [AsyncOp.receive] ∧
    (loop b env s).1.transmitFlag = false ∧
    (∀ r, loop b { env with startReceiveStatus := r } s = loop b env s) := by
  have hall : ∀ e, loop b e s =
      ({ s with operationDone := false, transmitFlag := false },
        transmitReport b s.transmissionState ++ [.startReceive]) :=
    fun e => loop_transmit_branch b e s hd ht
  rw [hall env]
  refine ⟨?_, ?_, ?_, rfl, fun r => hall _⟩
  · unfold transmitReport
    split <;> simp
  · intro m
    unfold transmitReport
    split <;> simp
  · simp only [asyncOps_append, asyncOps_transmitReport]
    simp [asyncOps, Event.asyncOp]

theorem loop_after_transmit_witness :
    (loop (demoBuild true) okLoop (txDoneState (-2))).2 =
      [.print (.text "failed, code "), .println (.int (-2)), .startReceive] ∧
    (loop (demoBuild true) okLoop (txDoneState (-2))).2.count Event.startReceive = 1 ∧
    (loop (demoBuild true) okLoop (txDoneState (-2))).1.transmitFlag = false :=
  ⟨by decide,
    (loop_after_transmit (demoBuild true) okLoop (txDoneState (-2)) rfl rfl).1,
    (loop_after_transmit (demoBuild true) okLoop (txDoneState (-2)) rfl rfl).2.2.2.1⟩

/-! ## One iteration after a completed reception -/

theorem loop_clears_flag (b : Build) (env : LoopEnv) (s : State) :
    (loop b env s).1.operationDone = false := by
  cases hd : s.operationDone with
  | false => rw [loop_idle b env s hd]; exact hd
  | true =>
    cases ht : s.transmitFlag with
    | true => rw [loop_transmit_branch b env s hd ht]
    | false => rw [loop_receive_branch b env s hd ht]

/-- A firing inside an iteration has the effect of a notification arriving before the
next one, which is how runs (`iterate`) account for it. -/
theorem loopIrq_eq_arrive (b : Build) (env : LoopEnv) (fired : Bool) (s : State) :
    loopIrq b env fired s = (arrive fired (loop b env s).1, (loop b env s).2) := rfl

theorem loopIrq_flag (b : Build) (env : LoopEnv) (fired : Bool) (s : State) :
    (loopIrq b env fired s).1.operationDone = fired := by
  cases fired with
  | true => rfl
  | false => exact loop_clears_flag b env s

/-- C5, as stated, fails: `setFlag` can fire while `loop` runs. Entered with
`operationDone = true` in the listening role, an iteration during which the handler fires
after line 156 returns with the flag true, and the next iteration, with no `setFlag`
between the two, makes a second role transition: the pair starts a transmission and then
a reception. -/
theorem flag_set_again_inside_iteration :
    rxDoneState.operationDone = true ∧
    (loopIrq (demoBuild false) okLoop true rxDoneState).1.operationDone = true ∧
    asyncOps ((loopIrq (demoBuild false) okLoop true rxDoneState).2 ++
      (loopIrq (demoBuild false) okLoop false
        (loopIrq (demoBuild false) okLoop true rxDoneState).1).2) =
      [AsyncOp.transmit, AsyncOp.receive] := by
  decide

/-- C5, amended: when `loop` returns, `operationDone` is true exactly if `setFlag` fired
during the iteration after the flag was tested and cleared; so an iteration that finds
`operationDone = true` and during which `setFlag` does not fire leaves it false. An
iteration entered with `operationDone = false` makes no call at all (no radio operation,
no log line) and leaves `transmitFlag`, `transmissionState` and the message counter as they
were. Hence of two consecutive iterations with no `setFlag` during the first one or between
them, the second does nothing and together they start at most one asynchronous
operation. -/
theorem loop_consumes_flag_once (b : Build) (n fired fired' : Bool) (env env' : LoopEnv)
    (s : State) :
    (loopIrq b env fired s).1.operationDone = fired ∧
    (s.operationDone = true → (loopIrq b env false s).1.operationDone = false) ∧
    (s.operationDone = false →
      (loopIrq b env fired s).2 = [] ∧
      (loopIrq b env fired s).1.transmitFlag = s.transmitFlag ∧
      (loopIrq b env fired s).1.transmissionState = s.transmissionState ∧
      (loopIrq b env fired s).1.cnt = s.cnt ∧
      loopIrq b env false s = (s, [])) ∧
    (loopIrq b env' fired' (loopIrq b env false (arrive n s)).1).2 = [] ∧
    (loopIrq b env' false (loopIrq b env false (arrive n s)).1).1 =
      (loopIrq b env false (arrive n s)).1 ∧
    (asyncOps ((loopIrq b env false (arrive n s)).2 ++
      (loopIrq b env' fired' (loopIrq b env false (arrive n s)).1).2)).length ≤ 1 ∧
    iterate b s [⟨n, env⟩, ⟨false, env'⟩] = loopIrq b env false (arrive n s) := by
  have hq : ∀ (e : LoopEnv) (t : State), loopIrq b e false t = loop b e t := fun _ _ => rfl
  have h2 : ∀ t : State, loop b env' (loop b env t).1 = ((loop b env t).1, []) :=
    fun t => loop_idle b env' _ (loop_clears_flag b env t)
  have hsnd : (loopIrq b env' fired' (loopIrq b env false (arrive n s)).1).2 = [] := by
    rw [loopIrq_eq_arrive, hq, h2]
  refine ⟨loopIrq_flag b env fired s, fun _ => loopIrq_flag b env false s, ?_, hsnd, ?_, ?_, ?_⟩
  · intro hd
    rw [loopIrq_eq_arrive, hq, loop_idle b env s hd]
    cases fired <;> exact ⟨rfl, rfl, rfl, rfl, rfl⟩
  · rw [hq, hq, h2]
  · rw [hsnd, List.append_nil, hq]
    rcases loop_asyncOps b env (arrive n s) with ⟨_, h⟩ | ⟨_, h, _⟩
    · rw [h]; simp [asyncOps]
    · rw [h]; simp
  · simp only [iterate_cons, iterate_nil, hq]
    have : arrive false (loop b env (arrive n s)).1 = (loop b env (arrive n s)).1 := rfl
    rw [this, h2]
    simp

theorem loop_consumes_flag_once_witness :
    (txDoneState 0).operationDone = true ∧
    (loopIrq (demoBuild true) okLoop false (txDoneState 0)).1.operationDone = false ∧
    iterate (demoBuild true) (txDoneState 0) [⟨false, okLoop⟩, ⟨false, okLoop⟩] =
      ({ transmissionState := 0, transmitFlag := false, operationDone := false, cnt := 1 },
        [.println (.text "transmission finished!"), .startReceive]) :=
  ⟨rfl,
    (loop_consumes_flag_once (demoBuild true) false false false okLoop okLoop
      (txDoneState 0)).2.1 rfl,
    by decide⟩

/-! ## Failure of the radio configuration -/

/-- C6: when `radio.begin` returns a status `s` other than `RADIOLIB_ERR_NONE`, on either
build, start-up ends by logging "failed, code " and then `s` and never returns (it stays
in the `while (true) yield();` loop): whatever would follow, the run contains no
`startTransmit`, `startReceive` or `readData` call and no `setDio0Action` call. -/
theorem run_config_failure (b : Build) (env : SetupEnv) (steps : List Step)
    (h : env.beginStatus ≠ b.errNone) :
    (run b env steps).1 = Flow.halted ∧
    (∃ pre, (run b env steps).2.2 =
      pre ++ [.print (.text "failed, code "), .println (.int env.beginStatus)]) ∧
    (∀ e ∈ (run b env steps).2.2, e.isRadioOp = false ∧ e ≠ Event.setDio0Action) := by
  have hrun : run b env steps =
      (.halted, initState b,
        bootCalls b ++ [.print (.text "failed, code "), .println (.int env.beginStatus)]) := by
    simp only [run, setup_begin_failed b env _ h]
  rw [hrun]
  refine ⟨rfl, ⟨_, rfl⟩, ?_⟩
  intro e he
  rcases List.mem_append.1 he with he | he
  · exact bootCalls_quiet b e he
  · simp at he
    rcases he with he | he <;> subst he <;> simp [Event.isRadioOp]

theorem run_config_failure_witness :
    ({ okSetup with beginStatus := -2 } : SetupEnv).beginStatus ≠ (demoBuild true).errNone ∧
    (run (demoBuild true) { okSetup with beginStatus := -2 }
      [⟨true, okLoop⟩, ⟨true, okLoop⟩]).1 = Flow.halted :=
  ⟨by decide,
    (run_config_failure (demoBuild true) { okSetup with beginStatus := -2 }
      [⟨true, okLoop⟩, ⟨true, okLoop⟩] (by decide)).1⟩

/-! ## Which failures stop the controller -/

/-- C7, as stated, fails: on the Responder build, with `radio.begin` successful, a failing
`startReceive` in `setup` (status -2 here) sends `setup` into its `while (true)` loop, and no
`loop` iteration is ever run. -/
theorem responder_listen_failure_halts :
    ({ okSetup with startReceiveStatus := -2 } : SetupEnv).beginStatus =
      (demoBuild false).errNone ∧
    (setup (demoBuild false) { okSetup with startReceiveStatus := -2 }
      (initState (demoBuild false))).1 = Flow.halted ∧
    asyncOps (run (demoBuild false) { okSetup with startReceiveStatus := -2 }
      [⟨true, okLoop⟩, ⟨true, okLoop⟩]).2.2 = [AsyncOp.receive] := by
  decide

/-- C7, amended: when `radio.begin` returns `RADIOLIB_ERR_NONE` and, on the Responder build,
so does the `startReceive` call of `setup`, then whatever `startTransmit`, `readData` and
the `startReceive` calls of `loop` return, `setup` returns and every iteration of the run
is executed in full. -/
theorem run_never_halts (b : Build) (env : SetupEnv) (steps : List Step)
    (hb : env.beginStatus = b.errNone)
    (hr : b.initiatingNode = false → env.startReceiveStatus = b.errNone) :
    (setup b env (initState b)).1 = Flow.returned ∧
    (run b env steps).1 = Flow.returned ∧
    (run b env steps).2.1 = (iterate b (setup b env (initState b)).2.1 steps).1 ∧
    (run b env steps).2.2 =
      (setup b env (initState b)).2.2 ++ (iterate b (setup b env (initState b)).2.1 steps).2 := by
  cases hi : b.initiatingNode with
  | true =>
    simp [run, setup_initiator b env _ hb hi]
  | false =>
    simp [run, setup_responder b env _ hb hi, hr hi]

theorem run_never_halts_witness :
    okSetup.beginStatus = (demoBuild false).errNone ∧
    ((demoBuild false).initiatingNode = false →
      okSetup.startReceiveStatus = (demoBuild false).errNone) ∧
    (run (demoBuild false) okSetup [⟨true, crcLoop⟩, ⟨true, okLoop⟩]).1 = Flow.returned :=
  ⟨by decide, fun _ => by decide,
    (run_never_halts (demoBuild false) okSetup [⟨true, crcLoop⟩, ⟨true, okLoop⟩]
      (by decide) (fun _ => by decide)).2.1⟩

/-! ## What is logged when `readData` fails -/

/-- C8, as stated, fails: when `readData` returns -7 (CRC mismatch) the only thing the
iteration logs is the announcement of the next transmission; the status is printed
nowhere. -/
theorem crc_failure_not_logged :
    rxDoneState.operationDone = true ∧ rxDoneState.transmitFlag = false ∧
    crcLoop.readDataStatus = -7 ∧ crcLoop.readDataStatus ≠ (demoBuild false).errNone ∧
    (loop (demoBuild false) crcLoop rxDoneState).2.filter Event.isLog =
      [.print (.text "[SX1276] Sending another packet ... ")] ∧
    Event.print (.int (-7)) ∉ (loop (demoBuild false) crcLoop rxDoneState).2 ∧
    Event.println (.int (-7)) ∉ (loop (demoBuild false) crcLoop rxDoneState).2 := by
  decide

/-- C8, amended: in an iteration entered with `operationDone = true` and
`transmitFlag = false` in which `readData` returns a status other than
`RADIOLIB_ERR_NONE`, the failure is not reported: the whole log output of the iteration
is the announcement "[SX1276] Sending another packet ... ", no status code is printed,
and the calls made are the same whichever failing status was returned. -/
theorem loop_receive_failure_silent (b : Build) (env : LoopEnv) (s : State)
    (hd : s.operationDone = true) (ht : s.transmitFlag = false)
    (hs : env.readDataStatus ≠ b.errNone) :
    (loop b env s).2.filter Event.isLog =
      [.print (.text "[SX1276] Sending another packet ... ")] ∧
    (∀ v, Event.print (.int v) ∉ (loop b env s).2 ∧ Event.println (.int v) ∉ (loop b env s).2) ∧
    (∀ r, r ≠ b.errNone → loop b { env with readDataStatus := r } s = loop b env s) := by
  refine ⟨?_, ?_, ?_⟩
  · rw [loop_receive_branch b env s hd ht]
    simp [receiveReport, hs, Event.isLog]
  · intro v
    rw [loop_receive_branch b env s hd ht]
    simp [receiveReport, hs]
  · intro r hr
    rw [loop_receive_branch b env s hd ht, loop_receive_branch b _ s hd ht]
    simp [receiveReport, hs, hr]

theorem loop_receive_failure_silent_witness :
    crcLoop.readDataStatus ≠ (demoBuild true).errNone ∧
    (loop (demoBuild true) crcLoop rxDoneState).2.filter Event.isLog =
      [.print (.text "[SX1276] Sending another packet ... ")] :=
  ⟨by decide,
    (loop_receive_failure_silent (demoBuild true) crcLoop rxDoneState rfl rfl (by decide)).1⟩

/-! ## Report of the transmission outcome -/

theorem iterate_idle (b : Build) (envs : List LoopEnv) (s : State)
    (h : s.operationDone = false) :
    iterate b s (envs.map (Step.mk false)) = (s, []) := by
  induction envs with
  | nil => rfl
  | cons e rest ih =>
    have ha : arrive false s = s := rfl
    simp only [List.map_cons, iterate_cons, ha, loop_idle b e s h, ih]
    simp

/-- C9: let `t` be the status returned by the latest `startTransmit`, made by `transmitMsg`
either from `setup` on the Initiator or from the receive branch of `loop`. After any number
of iterations without notification (which do nothing), the next iteration that handles a
completion logs "transmission finished!" if `t = RADIOLIB_ERR_NONE`, and otherwise
"failed, code " followed by `t`; in both cases its next and last call is `startReceive`. -/
theorem transmit_outcome_reported (b : Build) (t : Int) (s : State) (idle : List LoopEnv)
    (env : LoopEnv)
    (hs : (∃ se : SetupEnv, b.initiatingNode = true ∧ se.beginStatus = b.errNone ∧
              se.startTransmitStatus = t ∧ s = (setup b se (initState b)).2.1) ∨
          (∃ (le : LoopEnv) (s0 : State), s0.operationDone = true ∧ s0.transmitFlag = false ∧
              le.startTransmitStatus = t ∧ s = (loop b le s0).1)) :
    iterate b s (idle.map (Step.mk false)) = (s, []) ∧
    (t = b.errNone →
      (loop b env (setFlag s)).2 =
        [.println (.text "transmission finished!"), .startReceive]) ∧
    (t ≠ b.errNone →
      (loop b env (setFlag s)).2 =
        [.print (.text "failed, code "), .println (.int t), .startReceive]) := by
  have key : s.operationDone = false ∧ s.transmitFlag = true ∧ s.transmissionState = t := by
    rcases hs with ⟨se, hi, hb, ht, rfl⟩ | ⟨le, s0, hd, hf, ht, rfl⟩
    · rw [setup_initiator b se _ hb hi]
      exact ⟨rfl, rfl, ht⟩
    · rw [loop_receive_branch b le s0 hd hf]
      exact ⟨rfl, rfl, ht⟩
  obtain ⟨h1, h2, h3⟩ := key
  refine ⟨iterate_idle b idle s h1, ?_, ?_⟩
  · intro h
    rw [loop_transmit_branch b env (setFlag s) rfl h2]
    simp [setFlag, transmitReport, h3, h]
  · intro h
    rw [loop_transmit_branch b env (setFlag s) rfl h2]
    simp [setFlag, transmitReport, h3, h]

theorem transmit_outcome_reported_witness :
    (-2 : Int) ≠ (demoBuild true).errNone ∧
    (loop (demoBuild true) okLoop
        (setFlag (setup (demoBuild true) { okSetup with startTransmitStatus := -2 }
          (initState (demoBuild true))).2.1)).2 =
      [.print (.text "failed, code "), .println (.int (-2)), .startReceive] :=
  ⟨by decide,
    (transmit_outcome_reported (demoBuild true) (-2) _ [okLoop, okLoop] okLoop
      (Or.inl ⟨{ okSetup with startTransmitStatus := -2 }, rfl, rfl, rfl, rfl⟩)).2.2
      (by decide)⟩

/-! ## The message counter -/

theorem sentCounters_append (xs ys : List Event) :
    sentCounters (xs ++ ys) = sentCounters xs ++ sentCounters ys := by
  simp [sentCounters, sentMsgs_append]

theorem sentCounters_nil : sentCounters [] = [] := rfl

theorem sentCounters_cons (e : Event) (rest : List Event) :
    sentCounters (e :: rest) =
      (match e with
        | .startTransmit m => [m.cnt]
        | _ => []) ++ sentCounters rest := by
  cases e <;> rfl

theorem cnt_arrive (n : Bool) (s : State) : (arrive n s).cnt = s.cnt := by
  cases n <;> rfl

/-- One iteration transmits nothing and keeps the counter, or transmits one message that
carries the incremented counter. -/
theorem loop_sentCounters (b : Build) (env : LoopEnv) (s : State) :
    (sentCounters (loop b env s).2 = [] ∧ (loop b env s).1.cnt = s.cnt) ∨
    (sentCounters (loop b env s).2 = [(s.cnt + 1) % 65536] ∧
      (loop b env s).1.cnt = (s.cnt + 1) % 65536) := by
  cases hd : s.operationDone with
  | false => rw [loop_idle b env s hd]; exact Or.inl ⟨rfl, rfl⟩
  | true =>
    cases ht : s.transmitFlag with
    | true =>
      rw [loop_transmit_branch b env s hd ht]
      refine Or.inl ⟨?_, rfl⟩
      simp [sentCounters, sentMsgs_append, sentMsgs_transmitReport, sentMsgs]
    | false =>
      rw [loop_receive_branch b env s hd ht]
      refine Or.inr ⟨?_, rfl⟩
      simp [sentCounters, sentMsgs_append, sentMsgs_receiveReport, sentMsgs]

/-- Along any sequence of iterations, the message at position `i` carries the counter at
entry plus `i + 1`, modulo `2 ^ 16`. -/
theorem iterate_sentCounters (b : Build) (steps : List Step) (s : State) (i c : Nat)
    (h : (sentCounters (iterate b s steps).2)[i]? = some c) :
    c = (s.cnt + i + 1) % 65536 := by
  induction steps generalizing s i with
  | nil => simp [iterate_nil, sentCounters, sentMsgs] at h
  | cons st rest ih =>
    rw [iterate_cons] at h
    simp only [sentCounters_append] at h
    rcases loop_sentCounters b st.env (arrive st.notified s) with ⟨h1, h2⟩ | ⟨h1, h2⟩
    · rw [h1, List.nil_append] at h
      have := ih _ i h
      rw [h2, cnt_arrive] at this
      exact this
    · rw [h1, cnt_arrive] at h
      cases i with
      | zero =>
        simp at h
        omega
      | succ j =>
        simp at h
        have := ih _ j h
        rw [h2, cnt_arrive] at this
        omega

/-- In any run, the message at position `i` (from 0) carries `(i + 1) % 65536`. -/
theorem run_sentCounters (b : Build) (env : SetupEnv) (steps : List Step) (i c : Nat)
    (h : (sentCounters (run b env steps).2.2)[i]? = some c) :
    c = (i + 1) % 65536 := by
  by_cases hb : env.beginStatus = b.errNone
  · cases hi : b.initiatingNode with
    | true =>
      simp only [run, setup_initiator b env _ hb hi, sentCounters_append] at h
      have h0 : sentCounters (bootCalls b) = [] := by simp [sentCounters, sentMsgs_bootCalls]
      rw [h0] at h
      cases i with
      | zero =>
        simp [sentCounters, sentMsgs, initState] at h
        omega
      | succ j =>
        simp only [sentCounters_cons, sentCounters_nil, List.nil_append, List.append_nil,
          List.singleton_append, List.getElem?_cons_succ] at h
        have := iterate_sentCounters b steps _ j c h
        simp [initState] at this
        omega
    | false =>
      by_cases hr : env.startReceiveStatus = b.errNone
      · simp only [run, setup_responder b env _ hb hi, hr, if_true, sentCounters_append] at h
        have h0 : sentCounters (bootCalls b) = [] := by simp [sentCounters, sentMsgs_bootCalls]
        rw [h0] at h
        simp only [sentCounters_cons, sentCounters_nil, List.nil_append, List.append_nil] at h
        have := iterate_sentCounters b steps _ i c h
        simp [initState] at this
        omega
      · simp only [run, setup_responder b env _ hb hi, hr, if_false, sentCounters_append] at h
        have h0 : sentCounters (bootCalls b) = [] := by simp [sentCounters, sentMsgs_bootCalls]
        rw [h0] at h
        simp [sentCounters, sentMsgs] at h
  · simp only [run, setup_begin_failed b env _ hb, sentCounters_append] at h
    have h0 : sentCounters (bootCalls b) = [] := by simp [sentCounters, sentMsgs_bootCalls]
    rw [h0] at h
    simp [sentCounters, sentMsgs] at h

theorem loop_notified_sending (b : Build) (e : LoopEnv) (s : State)
    (hs : s.transmitFlag = true) :
    (loop b e (arrive true s)).1.transmitFlag = false ∧
    (loop b e (arrive true s)).1.cnt = s.cnt ∧
    sentCounters (loop b e (arrive true s)).2 = [] := by
  have a1 : arrive true s = setFlag s := rfl
  rw [a1, loop_transmit_branch b e (setFlag s) rfl hs]
  refine ⟨rfl, rfl, ?_⟩
  simp [sentCounters, sentMsgs_append, sentMsgs_transmitReport, sentMsgs]

theorem loop_notified_listening (b : Build) (e : LoopEnv) (s : State)
    (hs : s.transmitFlag = false) :
    (loop b e (arrive true s)).1.transmitFlag = true ∧
    sentCounters (loop b e (arrive true s)).2 = [(s.cnt + 1) % 65536] := by
  have a1 : arrive true s = setFlag s := rfl
  rw [a1, loop_receive_branch b e (setFlag s) rfl hs]
  refine ⟨rfl, ?_⟩
  simp [sentCounters, sentMsgs_append, sentMsgs_receiveReport, sentMsgs, setFlag]

/-- A completed transmission followed by a completed reception: one message goes out and
the controller is back in the sending role. -/
theorem iterate_round (b : Build) (e : LoopEnv) (s : State) (hs : s.transmitFlag = true)
    (rest : List Step) :
    ∃ s2 : State, s2.transmitFlag = true ∧
      sentCounters (iterate b s (⟨true, e⟩ :: ⟨true, e⟩ :: rest)).2 =
        (s.cnt + 1) % 65536 :: sentCounters (iterate b s2 rest).2 := by
  obtain ⟨f1, c1, t1⟩ := loop_notified_sending b e s hs
  obtain ⟨f2, t2⟩ := loop_notified_listening b e (loop b e (arrive true s)).1 f1
  refine ⟨(loop b e (arrive true (loop b e (arrive true s)).1)).1, f2, ?_⟩
  rw [iterate_cons, iterate_cons]
  simp only [sentCounters_append, t1, t2, c1, List.nil_append, List.singleton_append]

/-- When every iteration is notified, `2 * k` iterations starting in the sending role
transmit exactly `k` messages. -/
theorem iterate_rounds_length (b : Build) (e : LoopEnv) (k : Nat) (s : State)
    (hs : s.transmitFlag = true) :
    (sentCounters (iterate b s (List.replicate (2 * k) ⟨true, e⟩)).2).length = k := by
  induction k generalizing s with
  | zero => rfl
  | succ k ih =>
    have hrep : List.replicate (2 * (k + 1)) (⟨true, e⟩ : Step) =
        ⟨true, e⟩ :: ⟨true, e⟩ :: List.replicate (2 * k) ⟨true, e⟩ := by
      rw [Nat.mul_succ]
      rfl
    obtain ⟨s2, h2, heq⟩ := iterate_round b e s hs (List.replicate (2 * k) ⟨true, e⟩)
    rw [hrep, heq, List.length_cons, ih s2 h2]

/-- The Initiator, all operations succeeding and every completion notified, has sent
`k + 1` messages after `2 * k` iterations. -/
theorem run_rounds_length (k : Nat) :
    (sentCounters (run (demoBuild true) okSetup
      (List.replicate (2 * k) ⟨true, okLoop⟩)).2.2).length = k + 1 := by
  have hset := setup_initiator (demoBuild true) okSetup (initState (demoBuild true)) rfl rfl
  simp only [run, hset, sentCounters_append]
  have h0 : sentCounters (bootCalls (demoBuild true)) = [] := by
    simp [sentCounters, sentMsgs_bootCalls]
  rw [h0]
  simp only [sentCounters_cons, sentCounters_nil, List.nil_append, List.append_nil,
    List.singleton_append, List.length_cons]
  rw [iterate_rounds_length _ _ k _ rfl]

/-- C4, as stated, fails: in the run of the Initiator with `2 * 65535` notified
iterations, all operations succeeding, the 65535th message carries counter 65535 and the
65536th carries 0, not 65536. -/
theorem counter_wraps_around :
    (sentCounters (run (demoBuild true) okSetup
      (List.replicate (2 * 65535) ⟨true, okLoop⟩)).2.2)[65534]? = some 65535 ∧
    (sentCounters (run (demoBuild true) okSetup
      (List.replicate (2 * 65535) ⟨true, okLoop⟩)).2.2)[65535]? = some 0 := by
  have hlen := run_rounds_length 65535
  have key : ∀ i, i < 65536 →
      (sentCounters (run (demoBuild true) okSetup
        (List.replicate (2 * 65535) ⟨true, okLoop⟩)).2.2)[i]? = some ((i + 1) % 65536) := by
    intro i hi
    have hi2 : i < (sentCounters (run (demoBuild true) okSetup
        (List.replicate (2 * 65535) ⟨true, okLoop⟩)).2.2).length := by
      rw [hlen]; exact hi
    rw [List.getElem?_eq_getElem hi2]
    exact congrArg some (run_sentCounters _ _ _ i _ (List.getElem?_eq_getElem hi2))
  exact ⟨key 65534 (by decide), key 65535 (by decide)⟩

/-- C4, amended: the counter is a 16-bit value. In every run the `n`-th message built by
`transmitMsg` carries `n % 65536`; so the counter of each message is the counter of the
one before plus 1 modulo 65536: plus 1 exactly as long as the previous counter is below
65535 (in particular throughout the first 65535 messages), and 0 after 65535. -/
theorem sent_counter_step (b : Build) (env : SetupEnv) (steps : List Step) :
    (∀ n c, 1 ≤ n → (sentCounters (run b env steps).2.2)[n - 1]? = some c →
      c = n % 65536) ∧
    (∀ n c c', 1 ≤ n → (sentCounters (run b env steps).2.2)[n - 1]? = some c →
      (sentCounters (run b env steps).2.2)[n]? = some c' →
      c' = (c + 1) % 65536 ∧ (c < 65535 → c' = c + 1) ∧ (n < 65535 → c' = c + 1) ∧
        (c = 65535 → c' = 0)) := by
  have h1 : ∀ n c, 1 ≤ n → (sentCounters (run b env steps).2.2)[n - 1]? = some c →
      c = n % 65536 := by
    intro n c hn h
    have := run_sentCounters b env steps (n - 1) c h
    rw [Nat.sub_add_cancel hn] at this
    exact this
  refine ⟨h1, ?_⟩
  intro n c c' hn h h'
  have e1 := h1 n c hn h
  have e2 := run_sentCounters b env steps n c' h'
  omega

theorem sent_counter_step_witness :
    (1 ≤ 2) ∧
    (sentCounters (run (demoBuild true) okSetup
      [⟨true, okLoop⟩, ⟨true, crcLoop⟩, ⟨true, okLoop⟩, ⟨true, okLoop⟩]).2.2) = [1, 2, 3] ∧
    (3 = (2 + 1) % 65536 ∧ (2 < 65535 → 3 = 2 + 1) ∧ (2 < 65535 → 3 = 2 + 1) ∧
      (2 = 65535 → 3 = 0)) :=
  ⟨by decide, by decide,
    (sent_counter_step (demoBuild true) okSetup
      [⟨true, okLoop⟩, ⟨true, crcLoop⟩, ⟨true, okLoop⟩, ⟨true, okLoop⟩]).2 2 2 3
      (by decide) (by decide) (by decide)⟩

/-! ## The two-node exchange -/

theorem sentCounters_bootCalls (b : Build) : sentCounters (bootCalls b) = [] := by
  simp [sentCounters, sentMsgs_bootCalls]

/-- C10: with `radio.begin` (and the Responder's first `startReceive`) succeeding, the
message the Initiator transmits in `setup` carries counter 1; the first message the
Responder transmits, on its first receive completion, carries counter 1 whatever
`readData` delivered; the message the Initiator transmits on its first receive
completion carries counter 2. In every run the counters sent are determined by how many
messages the node has sent: the one at position `i` (from 0) is `(i + 1) % 65536`,
whatever was received. -/
theorem two_node_counters (ini res : Build) (si sr : SetupEnv) (e1 e2 e3 : LoopEnv)
    (hi : ini.initiatingNode = true) (hr : res.initiatingNode = false)
    (hsi : si.beginStatus = ini.errNone) (hsr : sr.beginStatus = res.errNone)
    (hsl : sr.startReceiveStatus = res.errNone) :
    sentCounters (setup ini si (initState ini)).2.2 = [1] ∧
    sentCounters (run res sr [⟨true, e1⟩]).2.2 = [1] ∧
    sentCounters (run ini si [⟨true, e2⟩, ⟨true, e3⟩]).2.2 = [1, 2] ∧
    (∀ (b : Build) (env : SetupEnv) (steps : List Step),
      sentCounters (run b env steps).2.2 =
        (List.range (sentCounters (run b env steps).2.2).length).map
          (fun i => (i + 1) % 65536)) := by
  have hset : sentCounters (setup ini si (initState ini)).2.2 = [1] := by
    rw [setup_initiator ini si _ hsi hi]
    simp only [sentCounters_append, sentCounters_bootCalls, sentCounters_cons,
      sentCounters_nil, List.nil_append, List.append_nil]
    rfl
  refine ⟨hset, ?_, ?_, ?_⟩
  · simp only [run, setup_responder res sr _ hsr hr, hsl, if_true, iterate_cons, iterate_nil,
      sentCounters_append, sentCounters_bootCalls, sentCounters_cons, sentCounters_nil,
      List.nil_append, List.append_nil]
    rw [(loop_notified_listening res e1 (initState res) rfl).2]
    rfl
  · obtain ⟨s2, _, h2⟩ := iterate_round ini e2
      { initState ini with transmissionState := si.startTransmitStatus, transmitFlag := true,
                           cnt := ((initState ini).cnt + 1) % 65536 } rfl []
    have hloops : sentCounters (iterate ini
        { initState ini with transmissionState := si.startTransmitStatus,
                             transmitFlag := true,
                             cnt := ((initState ini).cnt + 1) % 65536 }
        [⟨true, e2⟩, ⟨true, e3⟩]).2 = [2] := by
      have l1 := loop_notified_sending ini e2
        { initState ini with transmissionState := si.startTransmitStatus,
                             transmitFlag := true,
                             cnt := ((initState ini).cnt + 1) % 65536 } rfl
      have l2 := loop_notified_listening ini e3 _ l1.1
      rw [iterate_cons, iterate_cons, iterate_nil]
      simp only [sentCounters_append, l1.2.2, l2.2, l1.2.1, sentCounters_nil,
        List.nil_append, List.append_nil]
      rfl
    simp only [run, setup_initiator ini si _ hsi hi, sentCounters_append,
      sentCounters_bootCalls, List.nil_append]
    rw [hloops]
    rfl
  · intro b env steps
    apply List.ext_getElem?
    intro i
    by_cases hlt : i < (sentCounters (run b env steps).2.2).length
    · rw [List.getElem?_eq_getElem hlt]
      have := run_sentCounters b env steps i _ (List.getElem?_eq_getElem hlt)
      simp [hlt, this]
    · have hge : (sentCounters (run b env steps).2.2).length ≤ i := Nat.le_of_not_lt hlt
      rw [List.getElem?_eq_none hge, List.getElem?_eq_none (by simp [hge])]

theorem two_node_counters_witness :
    sentCounters (run (demoBuild false) okSetup [⟨true, okLoop⟩]).2.2 = [1] ∧
    sentCounters (run (demoBuild true) okSetup [⟨true, okLoop⟩, ⟨true, okLoop⟩]).2.2 = [1, 2] :=
  ⟨(two_node_counters (demoBuild true) (demoBuild false) okSetup okSetup okLoop okLoop okLoop
      rfl rfl rfl rfl rfl).2.1,
    (two_node_counters (demoBuild true) (demoBuild false) okSetup okSetup okLoop okLoop okLoop
      rfl rfl rfl rfl rfl).2.2.1⟩

end PingPong
